import Mathlib

/-!
Verification development for the Redmine/CRF RAG chatbot.

The Python source is shallowly embedded: question text is modelled as
`List Char`, regular-expression pattern tests are hand-compiled to executable
character-list scanners with the same search semantics, floating-point
distances (which may be `float('inf')`) are modelled by `PyFloat`, exact
numeric aggregates by `Rat`, and fallible external collaborators (embedding
provider, vector index) by `Except` values supplied as parameters.
-/

namespace RedmineRAG

/-- Python `str.lower()` applied character-wise; used to model `re.IGNORECASE`
matching by case-folding the subject text (patterns are written lower-case). -/
def lowerList (s : List Char) : List Char := s.map Char.toLower

/-- Python regex `\s` on the ASCII whitespace characters. -/
def isWS (c : Char) : Bool :=
  c == ' ' || c == '\t' || c == '\n' || c == '\r' || c == '\x0b' || c == '\x0c'

/-- Python regex `\w` (word character) approximated by ASCII alphanumerics,
underscore, and the Hangul syllable / jamo blocks used in this code base. -/
def isWordChar (c : Char) : Bool :=
  c.isAlphanum || c == '_' ||
  (0xAC00 ≤ c.val && c.val ≤ 0xD7A3) ||
  (0x1100 ≤ c.val && c.val ≤ 0x11FF) ||
  (0x3130 ≤ c.val && c.val ≤ 0x318F)

/-! ### Deterministic matchers (for extraction regexes)

Each returns the remainder of the input after consuming a match.  The
extraction regexes in the source are backtracking-free (`\s*` and `\d+` are
always followed by a character outside their class), so maximal-munch
consumption is exact. -/

/-- Consume a literal. -/
def dLit : List Char → List Char → Option (List Char)
  | [], s => some s
  | _ :: _, [] => none
  | p :: ps, c :: cs => if p == c then dLit ps cs else none

/-- Consume `\s*` (greedy). -/
def dWS (s : List Char) : List Char := s.dropWhile isWS

/-- Consume `\d+` (greedy), returning its numeric value (`int(...)`). -/
def dDigits (s : List Char) : Option (Nat × List Char) :=
  let ds := s.takeWhile Char.isDigit
  if ds.isEmpty then none
  else some (ds.foldl (fun n c => 10 * n + (c.toNat - 48)) 0, s.dropWhile Char.isDigit)

/-- Consume exactly `n` digits (regex `\d{n}`), returning their value. -/
def dExactDigits : Nat → List Char → Option (Nat × List Char)
  | 0, s => some (0, s)
  | n + 1, c :: cs =>
    if c.isDigit then
      (dExactDigits n cs).map (fun r => ((c.toNat - 48) * 10 ^ n + r.1, r.2))
    else none
  | _ + 1, [] => none

/-- Consume `\d+(?:\.\d+)?` (greedy), returning its value as a rational
(the Python code converts the captured text with `float(...)`). -/
def dNumber (s : List Char) : Option (Rat × List Char) :=
  match dDigits s with
  | none => none
  | some (n, rest) =>
    match rest with
    | '.' :: rest2 =>
      let fs := rest2.takeWhile Char.isDigit
      if fs.isEmpty then some ((n : Rat), rest)
      else
        some ((n : Rat) + (fs.foldl (fun k c => 10 * k + (c.toNat - 48)) 0 : Rat) /
                ((10 : Rat) ^ fs.length),
              rest2.dropWhile Char.isDigit)
    | _ => some ((n : Rat), rest)

/-- Consume one character from the given set (regex character class). -/
def dCharIn (cs : List Char) (s : List Char) : Option (Char × List Char) :=
  match s with
  | [] => none
  | c :: rest => if cs.contains c then some (c, rest) else none

/-- `re.search` as used for extraction: try the position matcher at every
start position, left to right, and return the first capture. -/
def findMapPos (f : List Char → Option α) : List Char → Option α
  | [] => f []
  | c :: cs =>
    match f (c :: cs) with
    | some a => some a
    | none => findMapPos f cs

/-! ### Chunking (`RAGHelperMixin._chunk_statistics_text`)

`if len(text) <= max_chars: return [text]` else all slices
`text[i:i+max_chars]` for `i in range(0, len(text), max_chars)`.
Text is modelled as `List Char`.  (`max_chars = 0` raises in Python's
`range`; the model returns `[]` there, and the claims only concern
positive `max_chars`.) -/

/-- The slicing loop, fuelled by the text length (each step consumes at
least one character when `m > 0`). -/
def chunkSlices (m : Nat) : Nat → List Char → List (List Char)
  | 0, _ => []
  | _, [] => []
  | fuel + 1, l => l.take m :: chunkSlices m fuel (l.drop m)

/-- `_chunk_statistics_text` from `rag_utils.py`. -/
def chunk_statistics_text (text : List Char) (maxChars : Nat) : List (List Char) :=
  if text.length ≤ maxChars then [text] else chunkSlices maxChars text.length text

/-! ### Backtracking matchers (for classification regexes)

A `Matcher` is a regex fragment in continuation-passing style: `m s k` holds
when some prefix of `s` matches the fragment and the continuation `k` accepts
the remainder.  Trying every split gives exact existence semantics for
greedy/lazy quantifiers, which is all `re.search`-based classification uses. -/

abbrev Matcher := List Char → (List Char → Bool) → Bool

/-- A literal. -/
def mLit (p : List Char) : Matcher := fun s k => (dLit p s).elim false k

/-- `\s*`: zero or more whitespace characters, all split points tried. -/
def mWS : Matcher := fun s k =>
  k s ||
  match s with
  | [] => false
  | c :: cs => isWS c && mWS cs k

/-- A single `\s` character. -/
def mWS1 : Matcher := fun s k =>
  match s with
  | [] => false
  | c :: cs => isWS c && k cs

/-- `\d*` continuation helper. -/
def mDigitsRest : Matcher := fun s k =>
  k s ||
  match s with
  | [] => false
  | c :: cs => c.isDigit && mDigitsRest cs k

/-- `\d+`. -/
def mDigits1 : Matcher := fun s k =>
  match s with
  | [] => false
  | c :: cs => c.isDigit && mDigitsRest cs k

/-- A single `\d`. -/
def mDigit : Matcher := fun s k =>
  match s with
  | [] => false
  | c :: cs => c.isDigit && k cs

/-- `.` (any character except a newline, `re.DOTALL` not set). -/
def mAnyOne : Matcher := fun s k =>
  match s with
  | [] => false
  | c :: cs => c != '\n' && k cs

/-- `.*` (greedy/lazy irrelevant: all extents tried; never crosses a newline). -/
def mAnyNN : Matcher := fun s k =>
  k s ||
  match s with
  | [] => false
  | c :: cs => c != '\n' && mAnyNN cs k

/-- One character out of a class. -/
def mCharIn (cs : List Char) : Matcher := fun s k =>
  match s with
  | [] => false
  | c :: rest => cs.contains c && k rest

/-- Alternation, e.g. `(a|b|c)`. -/
def mAlt (ps : List Matcher) : Matcher := fun s k => ps.any fun p => p s k

/-- `(p)?`. -/
def mOpt (p : Matcher) : Matcher := fun s k => p s k || k s

/-- Sequencing of fragments. -/
def mSeq (ps : List Matcher) : Matcher :=
  ps.foldr (fun p acc => fun s k => p s fun r => acc r k) (fun s k => k s)

/-- `$` with `re.MULTILINE` unset: end of the subject or just before a final
newline (zero-width). -/
def mEnd : Matcher := fun s k =>
  (decide (s = []) || decide (s = ['\n'])) && k s

/-- A literal fragment from a string. -/
def mL (t : String) : Matcher := mLit t.toList

/-- `re.search p s`: the fragment matches starting at some position. -/
def reSearch (m : Matcher) : List Char → Bool
  | [] => m [] fun _ => true
  | c :: cs => m (c :: cs) (fun _ => true) || reSearch m cs

/-- `re.search` for a pattern that starts with `\b` followed by a word
character: the match position must sit at the start of the subject or after
a non-word character. -/
def reSearchAfterBoundary (m : Matcher) (s : List Char) : Bool :=
  go none s
where
  go : Option Char → List Char → Bool
    | prev, s =>
      ((match prev with
        | none => true
        | some c => !isWordChar c) && m s fun _ => true) ||
      match s with
      | [] => false
      | c :: cs => go (some c) cs

/-! ### Pattern classifiers (`config/patterns.py` + `RAGHelperMixin`)

Every classifier compiles its pattern list with `re.IGNORECASE`
(`_get_compiled_patterns`), modelled by case-folding the question. -/

/-- `METADATA_QUERY_PATTERNS` applied by `RAGHelperMixin._is_metadata_query`. -/
def is_metadata_query (q : List Char) : Bool :=
  let s := lowerList q
  reSearch (mSeq [mL "어떤", mWS, mL "병원"]) s ||
  reSearch (mSeq [mL "병원별", mWS, mL "데이터", mWS, mL "수"]) s ||
  reSearch (mSeq [mOpt (mSeq [mL "가장", mWS]),
                  mAlt [mL "오래된", mL "최신", mL "최근"],
                  mAnyNN, mL "수술", mAnyNN, mL "날짜"]) s ||
  reSearch (mSeq [mL "어떤", mWS, mL "항목"]) s ||
  reSearch (mSeq [mL "데이터", mWS, mL "수집", mWS, mL "기간"]) s ||
  reSearch (mAlt [mL "필드", mL "컬럼", mL "column", mL "field"]) s

/-- `SAMPLE_QUERY_PATTERNS` applied by `RAGHelperMixin._is_sample_query`. -/
def is_sample_query (q : List Char) : Bool :=
  let s := lowerList q
  reSearch (mL "사례") s ||
  reSearch (mL "케이스") s ||
  reSearch (mL "case") s ||
  reSearch (mSeq [mDigits1, mWS, mL "개", mWS, mL "만"]) s ||
  reSearch (mSeq [mDigits1, mWS, mL "건", mWS, mL "만"]) s ||
  reSearch (mSeq [mL "몇", mWS, mL "개", mWS, mL "만"]) s ||
  reSearch (mSeq [mL "몇", mWS, mL "건", mWS, mL "만"]) s ||
  reSearch (mSeq [mL "상위", mWS, mDigits1]) s

/-- The hospital-name alternation of `STATISTICS_QUERY_PATTERNS`. -/
def mHospitalName : Matcher :=
  mAlt [mL "세브란스", mL "계명대", mL "분당차", mL "강남세브란스",
        mL "강남차", mL "단국대", mL "이화여대", mL "이대목동"]

/-- The `(있어|있나요|있습니까|있는지)` alternation. -/
def mExistsWord : Matcher :=
  mAlt [mL "있어", mL "있나요", mL "있습니까", mL "있는지"]

/-- `STATISTICS_QUERY_PATTERNS` as a disjunction over the case-folded
question (the raw pattern test, before the metadata/sample exclusions). -/
def matches_statistics_pattern (q : List Char) : Bool :=
  let s := lowerList q
  reSearch (mL "통계") s ||
  reSearch (mSeq [mL "몇", mWS, mAlt [mL "명", mL "건", mL "개"]]) s ||
  reSearch (mSeq [mL "총", mWS, mAlt [mL "환자", mL "데이터", mL "수"]]) s ||
  reSearch (mL "평균") s ||
  reSearch (mL "분포") s ||
  reSearch (mL "비율") s ||
  reSearch (mL "현황") s ||
  reSearch (mL "요약") s ||
  reSearch (mL "전체") s ||
  reSearch (mL "모든") s ||
  reSearch (mL "all") s ||
  reSearch (mL "summary") s ||
  reSearch (mL "count") s ||
  reSearch (mSeq [mL "수집한", mWS, mL "데이터"]) s ||
  reSearch (mSeq [mL "데이터", mWS, mL "현황"]) s ||
  reSearch (mSeq [mAlt [mL "er", mL "pr", mL "her2"], mAnyNN,
                  mAlt [mL "양성", mL "음성"]]) s ||
  reSearch (mSeq [mL "ki", mOpt (mAlt [mL "-", mWS1]), mL "67", mAnyNN,
                  mDigits1, mOpt (mL "%")]) s ||
  reSearch (mSeq [mL "폐경", mWS, mAlt [mL "전", mL "후"], mAnyNN,
                  mAlt [mL "호르몬", mL "er", mL "pr", mL "양성"]]) s ||
  reSearch (mSeq [mHospitalName, mWS, mOpt (mL "병원"), mWS,
                  mAlt [mL "은", mL "는", mL "의"], mOpt (mL "?"), mEnd]) s ||
  reSearch (mSeq [mAlt [mHospitalName,
                        mSeq [mL "병원", mWS, mL "0", mCharIn "1234567".toList]],
                  mAnyNN, mExistsWord]) s ||
  reSearch (mSeq [mAlt [mL "데이터", mL "환자", mL "record", mL "기록", mL "자료"],
                  mAnyNN, mExistsWord]) s ||
  reSearch mExistsWord s

/-- `RAGHelperMixin._is_statistics_query`: metadata questions and
small-sample requests are excluded before the statistics patterns run. -/
def is_statistics_query (q : List Char) : Bool :=
  if is_metadata_query q then false
  else if is_sample_query q then false
  else matches_statistics_pattern q

/-- `VERSION_COMPARISON_PATTERNS` applied by
`RAGHelperMixin._is_version_or_comparison_query`. -/
def is_version_or_comparison_query (q : List Char) : Bool :=
  let s := lowerList q
  reSearchAfterBoundary (mSeq [mL "0.", mDigit]) s ||
  reSearchAfterBoundary (mSeq [mL "v", mDigit]) s ||
  reSearch (mL "ver") s ||
  reSearch (mL "version") s ||
  reSearch (mL "버전") s ||
  reSearch (mL "전체") s ||
  reSearch (mL "목록") s ||
  reSearch (mL "비교") s ||
  reSearch (mL "차이") s ||
  reSearch (mL "모든") s ||
  reSearch (mL "최신") s ||
  reSearch (mL "이전") s ||
  reSearch (mL "변경") s ||
  reSearch (mL "업데이트") s

/-- `TECHNICAL_QUERY_PATTERNS` applied by
`RAGHelperMixin._is_specific_technical_query`. -/
def is_specific_technical_query (q : List Char) : Bool :=
  let s := lowerList q
  reSearch (mL "pytorch") s ||
  reSearch (mL "tensorflow") s ||
  reSearch (mL "cuda") s ||
  reSearch (mL "framework") s ||
  reSearch (mL "환경") s ||
  reSearch (mL "설정") s ||
  reSearch (mL "config") s ||
  reSearch (mL "파라미터") s ||
  reSearch (mL "하이퍼파라미터") s ||
  reSearch (mL "gpu") s ||
  reSearch (mL "cpu") s ||
  reSearch (mL "메모리") s ||
  reSearch (mL "배치") s ||
  reSearch (mL "epoch") s ||
  reSearch (mL "optimizer") s ||
  reSearch (mSeq [mL "learning", mOpt mAnyOne, mL "rate"]) s ||
  reSearch (mL "loss") s ||
  reSearch (mL "metric") s ||
  reSearch (mL "데이터셋") s ||
  reSearch (mL "dataset") s ||
  reSearch (mL "모델 구조") s ||
  reSearch (mL "architecture") s

/-- `RECENT_QUERY_PATTERN` applied by `RAGHelperMixin._is_recent_query`. -/
def is_recent_query (q : List Char) : Bool :=
  let s := lowerList q
  reSearch (mAlt [mL "최신", mL "최근", mSeq [mL "가장", mWS, mL "새로운"],
                  mL "latest", mL "recent"]) s

/-! ### Issue-id extraction (`RAGHelperMixin._extract_issue_ids`)

`ISSUE_ID_PATTERN = issue\s*#?(\d+)|이슈\s*#?(\d+)|#(\d+)` with
`re.IGNORECASE`; `findall` scans left to right and the extracted digit
groups are converted with `int` and deduplicated through a `set`. -/

/-- One attempt of `ISSUE_ID_PATTERN` at the current position (subject already
case-folded); returns the captured number and the remainder after the match. -/
def issueIdAt (s : List Char) : Option (Nat × List Char) :=
  (do
    let r ← dLit "issue".toList s
    let r := dWS r
    let r := ((dLit "#".toList r).getD r)
    dDigits r) <|>
  (do
    let r ← dLit "이슈".toList s
    let r := dWS r
    let r := ((dLit "#".toList r).getD r)
    dDigits r) <|>
  (do
    let r ← dLit "#".toList s
    dDigits r)

/-- The `findall` scan over the subject, fuelled by its length (every match
consumes at least one character). -/
def issueIdScan : Nat → List Char → List Nat
  | 0, _ => []
  | _, [] => []
  | fuel + 1, s@(_ :: rest) =>
    match issueIdAt s with
    | some (n, r) => n :: issueIdScan fuel r
    | none => issueIdScan fuel rest

/-- `_extract_issue_ids` (issue numbers as `Nat`, deduplicated). -/
def extract_issue_ids (q : List Char) : List Nat :=
  let s := lowerList q
  (issueIdScan s.length s).dedup

/-! ### Python floats for distances

ChromaDB distances are non-NaN floats, and `compare_collection_similarity`
produces `float('inf')` on failure; that is the whole value range the router
compares, so distances are modelled as rationals extended with infinity. -/

/-- A distance value: a finite float (as an exact rational) or `float('inf')`. -/
inductive PyFloat where
  | fin : Rat → PyFloat
  | inf : PyFloat
deriving DecidableEq, Repr

/-- Python `<` on distances. -/
def pyLt : PyFloat → PyFloat → Bool
  | .fin a, .fin b => a < b
  | .fin _, .inf => true
  | .inf, _ => false

/-- Python `x - threshold` for a finite threshold. -/
def pySubC : PyFloat → Rat → PyFloat
  | .fin a, t => .fin (a - t)
  | .inf, _ => .inf

/-! ### Engine router (`app.py` `chat()`, lines 109-173)

The subsidiary pattern classifiers that do not decide any claim
(`is_crf_data_query`, `is_redmine_data_query`, the `FOLLOWUP_PATTERNS` test)
are passed in as booleans; the issue-id fast path is computed from the
question itself.  The two collection distances are the values the ambiguous
branch would obtain from `compare_collection_similarity`. -/

inductive Engine where
  | redmine
  | crf
deriving DecidableEq, Repr

/-- The routing decision of `chat()`. -/
def chat_route (crfAvailable : Bool)
    (isCrfDataQuery isRedmineDataQuery isFollowup : Bool)
    (lastEngine : Option Engine) (crfDistance redmineDistance : PyFloat)
    (threshold : Rat) (question : List Char) : Engine :=
  let isCrfQuery := crfAvailable && isCrfDataQuery
  let isRedmineQuery := !(extract_issue_ids question).isEmpty || isRedmineDataQuery
  if isRedmineQuery then .redmine
  else if isCrfQuery && !isRedmineQuery then .crf
  else if lastEngine.isSome && isFollowup && crfAvailable then
    (if lastEngine == some .crf then .crf else .redmine)
  else if crfAvailable then
    (if pyLt crfDistance (pySubC redmineDistance threshold) then .crf
     else if pyLt redmineDistance (pySubC crfDistance threshold) then .redmine
     else if lastEngine == some .crf then .crf else .redmine)
  else .redmine

/-! ### Collection-similarity comparison (`rag_engine.py`)

The embedding call and the index query are external collaborators that may
raise; they are passed as `Except` values.  The query result is the
`results.get('distances', [[]])` list of per-query distance lists; indexing
its first element can itself raise (`IndexError`), which the enclosing
`try/except` also catches. -/

/-- The body of the `try:` block of `compare_collection_similarity`. -/
def compareBody (embed : Except String (List Rat))
    (query : List Rat → Except String (List (List PyFloat))) :
    Except String PyFloat := do
  let e ← embed
  let res ← query e
  match res.head? with
  | none => Except.error "IndexError"
  | some ds => pure (ds.headD PyFloat.inf)

/-- `compare_collection_similarity`: any failure inside the body yields
`(inf, collection_name)`. -/
def compare_collection_similarity (collectionName : String)
    (embed : Except String (List Rat))
    (query : List Rat → Except String (List (List PyFloat))) :
    PyFloat × String :=
  match compareBody embed query with
  | .ok d => (d, collectionName)
  | .error _ => (PyFloat.inf, collectionName)

/-! ### Adaptive top-k (`rag_engine_helpers.py` `_determine_top_k`)

The `DEFAULT_TOP_K` table lives in `config/constants.py`, which only stores
numbers; the function is parametrised by those numbers, so every theorem
below holds for any concrete table. -/

/-- The `C.DEFAULT_TOP_K` table. -/
structure TopKDefaults where
  recent : Int
  crf : Int
  version : Int
  technical : Int
  general : Int
deriving DecidableEq, Repr

/-- `_determine_top_k`: `recentQuery` is the `_is_recent_query` result the
caller passes in, `topK` the explicit request value (`None` when absent). -/
def determine_top_k (cfg : TopKDefaults) (useCase : String) (question : List Char)
    (topK : Option Int) (recentQuery : Bool) : Int :=
  match topK with
  | some k => if recentQuery && k < cfg.recent then cfg.recent else k
  | none =>
    let k :=
      if useCase = "crf" then cfg.crf
      else if is_version_or_comparison_query question then cfg.version
      else if is_specific_technical_query question then cfg.technical
      else cfg.general
    if recentQuery && k < cfg.recent then cfg.recent else k

/-! ### Document search (`rag_engine_helpers.py` `_search_documents`)

The direct-lookup result is the dictionary `collection.get` returned (or
`None`); the vector branch's collaborators — search-query construction,
embedding, and the index query — are parameters, so that performing no such
call is expressible as independence from them. -/

/-- A `collection.get` result (the fields `_search_documents` reads). -/
structure GetResult (δ μ : Type) where
  documents : List δ
  metadatas : List μ
deriving DecidableEq, Repr

/-- A `collection.query` result: one inner list per query embedding. -/
structure VQueryResult (δ μ : Type) where
  documents : List (List δ)
  metadatas : List (List μ)
  distances : List (List PyFloat)
deriving DecidableEq, Repr

/-- `_search_documents`.  The vector branch reads index `[0]` of each result
list (the per-query results for the single query embedding). -/
def search_documents {δ μ : Type} (directResults : Option (GetResult δ μ))
    (buildSearchQuery : Unit → List Char)
    (embed : List Char → List Rat)
    (vquery : List Rat → Int → VQueryResult δ μ)
    (topK : Int) : List δ × List μ × List PyFloat :=
  let vectorPath : Unit → List δ × List μ × List PyFloat := fun _ =>
    let sq := buildSearchQuery ()
    let e := embed sq
    let res := vquery e topK
    (res.documents.headD [], res.metadatas.headD [], res.distances.headD [])
  match directResults with
  | some r =>
    if r.documents.isEmpty then vectorPath ()
    else (r.documents, r.metadatas, r.documents.map fun _ => PyFloat.fin 0)
  | none => vectorPath ()

/-! ### Conversation memory store (`rag_utils.py`)

`save_conversation` and `search_conversation_history` wrap all collaborator
calls in `try/except`; the collaborators are `Except`-valued parameters.
`conversationCollection = none` models the store being absent
(initialisation failed, the attribute is `None`). -/

/-- Metadata of one stored conversation turn. -/
structure ConvMeta where
  question : String
  answer : String
  turnIndex : Int
  timestamp : String
deriving DecidableEq, Repr

/-- One entry of the list `search_conversation_history` returns. -/
structure ConvHistEntry where
  question : String
  answer : String
  turnIndex : Int
  timestamp : String
  relevanceScore : Rat
deriving DecidableEq, Repr

/-- A `conversation_collection.query` result. -/
structure ConvQueryResult where
  metadatas : List (List ConvMeta)
  distances : List (List Rat)
deriving DecidableEq, Repr

/-- `save_conversation`: embedding and upsert may fail; the `except` clause
logs and swallows any failure, so the caller-visible outcome is modelled as
the `Except` value the caller observes. -/
def save_conversation (conversationCollection : Option Unit)
    (embed : Except String (List Rat))
    (upsert : List Rat → Except String Unit) : Except String Unit :=
  match conversationCollection with
  | none => Except.ok ()
  | some _ =>
    match (do
        let e ← embed
        upsert e : Except String Unit) with
    | .ok _ => Except.ok ()
    | .error _ => Except.ok ()

/-- The body of the `try:` block of `search_conversation_history`. -/
def searchConversationBody (count : Except String Nat)
    (embed : Except String (List Rat))
    (query : List Rat → Except String ConvQueryResult) :
    Except String (List ConvHistEntry) := do
  let c ← count
  if c = 0 then pure []
  else
    let e ← embed
    let res ← query e
    match res.metadatas.head? with
    | none => pure []
    | some [] => pure []
    | some ms =>
      match res.distances.head? with
      | none => Except.error "IndexError"
      | some ds =>
        pure ((ms.zip ds).map fun p =>
          { question := p.1.question
            answer := p.1.answer
            turnIndex := p.1.turnIndex
            timestamp := p.1.timestamp
            relevanceScore := 1 - p.2 })

/-- `search_conversation_history`: failures inside the body are logged and
replaced by the empty list. -/
def search_conversation_history (conversationCollection : Option Unit)
    (count : Except String Nat)
    (embed : Except String (List Rat))
    (query : List Rat → Except String ConvQueryResult) : List ConvHistEntry :=
  match conversationCollection with
  | none => []
  | some _ =>
    match searchConversationBody count embed query with
    | .ok l => l
    | .error _ => []

/-! ### Dates (`datetime.date`)

`strptime(..., "%Y-%m-%d")` validates the calendar date; `(b - a).days`
is the difference of proleptic-Gregorian day numbers, and `b > a` on valid
dates coincides with the day-number order. -/

/-- A parsed calendar date. -/
structure PyDate where
  year : Nat
  month : Nat
  day : Nat
deriving DecidableEq, Repr

/-- Gregorian leap year. -/
def isLeapYear (y : Nat) : Bool := (y % 4 == 0 && y % 100 != 0) || y % 400 == 0

/-- Days in a month. -/
def daysInMonth (y m : Nat) : Nat :=
  if m == 2 then (if isLeapYear y then 29 else 28)
  else if m == 4 || m == 6 || m == 9 || m == 11 then 30
  else 31

/-- The dates `datetime.strptime` accepts (year 1..9999). -/
def isValidDate (y m d : Nat) : Bool :=
  1 ≤ y && y ≤ 9999 && 1 ≤ m && m ≤ 12 && 1 ≤ d && d ≤ daysInMonth y m

/-- Day number of a date (days-from-civil; any fixed epoch works since only
differences and the order are used). All intermediate values are
non-negative for valid dates. -/
def PyDate.toDays (dt : PyDate) : Int :=
  let y : Int := (dt.year : Int) - (if dt.month ≤ 2 then 1 else 0)
  let m : Int := dt.month
  let d : Int := dt.day
  let era : Int := y / 400
  let yoe : Int := y - era * 400
  let doy : Int := (153 * (m + (if 2 < m then -3 else 9)) + 2) / 5 + d - 1
  let doe : Int := yoe * 365 + yoe / 4 - yoe / 100 + doy
  era * 146097 + doe - 719468

/-- Consume `\d{4}-\d{2}-\d{2}` and validate it as `strptime` does. -/
def dDate (s : List Char) : Option (PyDate × List Char) := do
  let (y, r1) ← dExactDigits 4 s
  let r2 ← dLit "-".toList r1
  let (m, r3) ← dExactDigits 2 r2
  let r4 ← dLit "-".toList r3
  let (d, r5) ← dExactDigits 2 r4
  if isValidDate y m d then pure (⟨y, m, d⟩, r5) else none

/-! ### CRF field extraction (`crf_statistics.py` `calculate_crf_statistics`)

Each field is pulled out of the document text by a `re.search`; the
patterns are hand-compiled below.  A lazy `.*?` that here always precedes
a `:`-anchored value is `lazyFind`: it scans forward for the first position
where the tail pattern matches, without crossing a newline (`re.DOTALL`
is not set on those patterns). -/

/-- Scan for the first position where `f` succeeds, without crossing a
newline (the gap is matched by a non-DOTALL lazy `.*?`). -/
def lazyFind (f : List Char → Option α) : List Char → Option α
  | [] => f []
  | c :: cs =>
    match f (c :: cs) with
    | some a => some a
    | none => if c == '\n' then none else lazyFind f cs

/-- `나이\s*\(진단시\)\s*:\s*(\d+)`. -/
def extractAge (doc : List Char) : Option Nat :=
  findMapPos (fun s => do
    let r ← dLit "나이".toList s
    let r ← dLit "(진단시)".toList (dWS r)
    let r ← dLit ":".toList (dWS r)
    let (n, _) ← dDigits (dWS r)
    pure n) doc

/-- `암\s*size\s*\(mm\)_장경\s*:\s*(\d+(?:\.\d+)?)`. -/
def extractTumorSize (doc : List Char) : Option Rat :=
  findMapPos (fun s => do
    let r ← dLit "암".toList s
    let r ← dLit "size".toList (dWS r)
    let r ← dLit "(mm)_장경".toList (dWS r)
    let r ← dLit ":".toList (dWS r)
    let (v, _) ← dNumber (dWS r)
    pure v) doc

/-- Shared shape of the `ER`, `PR` and `HER2` minus/plus status patterns
(label, then `\s*`, the literal "(", minus, slash, plus, ")", then
`\s*:\s*([01])`); returns whether the captured value is 1 (positive). -/
def extractBinaryMarker (label : List Char) (doc : List Char) : Option Bool :=
  findMapPos (fun s => do
    let r ← dLit label s
    let r ← dLit "(-/+)".toList (dWS r)
    let r ← dLit ":".toList (dWS r)
    let (c, _) ← dCharIn "01".toList (dWS r)
    pure (c == '1')) doc

/-- ER minus/plus status. -/
def extractER (doc : List Char) : Option Bool := extractBinaryMarker "ER".toList doc

/-- PR minus/plus status. -/
def extractPR (doc : List Char) : Option Bool := extractBinaryMarker "PR".toList doc

/-- HER2 minus/plus status. -/
def extractHER2 (doc : List Char) : Option Bool := extractBinaryMarker "HER2".toList doc

/-- `KI-67\s*LI\s*\(%\)\s*:\s*(\d+(?:\.\d+)?)` with `re.IGNORECASE`
(applied to the case-folded document). -/
def extractKi67 (doc : List Char) : Option Rat :=
  findMapPos (fun s => do
    let r ← dLit "ki-67".toList s
    let r ← dLit "li".toList (dWS r)
    let r ← dLit "(%)".toList (dWS r)
    let r ← dLit ":".toList (dWS r)
    let (v, _) ← dNumber (dWS r)
    pure v) (lowerList doc)

/-- `림프절\s*전이여부_수술당시.*?:\s*([0123])`. -/
def extractLymphNode (doc : List Char) : Option Char :=
  findMapPos (fun s => do
    let r ← dLit "림프절".toList s
    let r ← dLit "전이여부_수술당시".toList (dWS r)
    lazyFind (fun t => do
      let u ← dLit ":".toList t
      let (c, _) ← dCharIn "0123".toList (dWS u)
      pure c) r) doc

/-- `전이\s*림프절\s*개수_수술당시\s*:\s*(\d+)`. -/
def extractLymphCount (doc : List Char) : Option Nat :=
  findMapPos (fun s => do
    let r ← dLit "전이".toList s
    let r ← dLit "림프절".toList (dWS r)
    let r ← dLit "개수_수술당시".toList (dWS r)
    let r ← dLit ":".toList (dWS r)
    let (n, _) ← dDigits (dWS r)
    pure n) doc

/-- `Axillary\s*LN\s*재발\s*여부\s*\(0/1\)\s*:\s*([01])`. -/
def extractAxillaryRec (doc : List Char) : Option Char :=
  findMapPos (fun s => do
    let r ← dLit "Axillary".toList s
    let r ← dLit "LN".toList (dWS r)
    let r ← dLit "재발".toList (dWS r)
    let r ← dLit "여부".toList (dWS r)
    let r ← dLit "(0/1)".toList (dWS r)
    let r ← dLit ":".toList (dWS r)
    let (c, _) ← dCharIn "01".toList (dWS r)
    pure c) doc

/-- `수술부위\s*재발여부\s*\(0/1\)\s*:\s*([01])`. -/
def extractSurgerySiteRec (doc : List Char) : Option Char :=
  findMapPos (fun s => do
    let r ← dLit "수술부위".toList s
    let r ← dLit "재발여부".toList (dWS r)
    let r ← dLit "(0/1)".toList (dWS r)
    let r ← dLit ":".toList (dWS r)
    let (c, _) ← dCharIn "01".toList (dWS r)
    pure c) doc

/-- `다른\s*장기로\s*전이\s*여부\s*\(0/1\)\s*:\s*([01])`. -/
def extractDistantRec (doc : List Char) : Option Char :=
  findMapPos (fun s => do
    let r ← dLit "다른".toList s
    let r ← dLit "장기로".toList (dWS r)
    let r ← dLit "전이".toList (dWS r)
    let r ← dLit "여부".toList (dWS r)
    let r ← dLit "(0/1)".toList (dWS r)
    let r ← dLit ":".toList (dWS r)
    let (c, _) ← dCharIn "01".toList (dWS r)
    pure c) doc

/-- `이\s*질병으로\s*사망여부.*?:\s*([012])`. -/
def extractSurvival (doc : List Char) : Option Char :=
  findMapPos (fun s => do
    let r ← dLit "이".toList s
    let r ← dLit "질병으로".toList (dWS r)
    let r ← dLit "사망여부".toList (dWS r)
    lazyFind (fun t => do
      let u ← dLit ":".toList t
      let (c, _) ← dCharIn "012".toList (dWS u)
      pure c) r) doc

/-- `수술연월일\s*:\s*(\d{4}-\d{2}-\d{2})`, validated by `strptime`. -/
def extractSurgeryDate (doc : List Char) : Option PyDate :=
  findMapPos (fun s => do
    let r ← dLit "수술연월일".toList s
    let r ← dLit ":".toList (dWS r)
    let (dt, _) ← dDate (dWS r)
    pure dt) doc

/-- `Last\s*F/U\s*날짜.*?:\s*(\d{4}-\d{2}-\d{2})` with `re.IGNORECASE`
(applied to the case-folded document), validated by `strptime`. -/
def extractFollowupDate (doc : List Char) : Option PyDate :=
  findMapPos (fun s => do
    let r ← dLit "last".toList s
    let r ← dLit "f/u".toList (dWS r)
    let r ← dLit "날짜".toList (dWS r)
    lazyFind (fun t => do
      let u ← dLit ":".toList t
      let (dt, _) ← dDate (dWS u)
      pure dt) r) (lowerList doc)

/-- The ER status label (section delimiter for the Allred scores). -/
def erLabelAt (s : List Char) : Option (List Char) := do
  let r ← dLit "ER".toList s
  dLit "(-/+)".toList (dWS r)

/-- The PR status label. -/
def prLabelAt (s : List Char) : Option (List Char) := do
  let r ← dLit "PR".toList s
  dLit "(-/+)".toList (dWS r)

/-- The suffix of the subject starting at the first position where `f`
matches (`re.search` restricted to the match start). -/
def suffixAtMatch (f : List Char → Option (List Char)) (s : List Char) :
    Option (List Char) :=
  findMapPos (fun t => if (f t).isSome then some t else none) s

/-- Take characters up to (excluding) the first position where `stop` holds;
models a DOTALL lazy `.*?` bounded by a lookahead `(?=...|$)`. -/
def takeUntilStop (stop : List Char → Bool) : List Char → List Char
  | [] => []
  | c :: cs => if stop (c :: cs) then [] else c :: takeUntilStop stop cs

/-- `스코어\s*계산\s*필요\s*:\s*(\d+)` searched inside a section. -/
def scoreSearch (sect : List Char) : Option Nat :=
  findMapPos (fun s => do
    let r ← dLit "스코어".toList s
    let r ← dLit "계산".toList (dWS r)
    let r ← dLit "필요".toList (dWS r)
    let r ← dLit ":".toList (dWS r)
    let (n, _) ← dDigits (dWS r)
    pure n) sect

/-- The ER section: from the ER status label, lazily (DOTALL) up to the PR
status label or the end of the document. -/
def erSection (doc : List Char) : Option (List Char) :=
  (suffixAtMatch erLabelAt doc).map (takeUntilStop fun s => (prLabelAt s).isSome)

/-- The PR section: from the PR status label, lazily (DOTALL) up to the
literal KI-67 or HER2 or the end of the document. -/
def prSection (doc : List Char) : Option (List Char) :=
  (suffixAtMatch prLabelAt doc).map
    (takeUntilStop fun s =>
      (dLit "KI-67".toList s).isSome || (dLit "HER2".toList s).isSome)

/-- ER Allred score: the score pattern searched inside the ER section. -/
def extractErAllred (doc : List Char) : Option Nat :=
  (erSection doc).bind scoreSearch

/-- PR Allred score: the score pattern searched inside the PR section. -/
def extractPrAllred (doc : List Char) : Option Nat :=
  (prSection doc).bind scoreSearch

/-! ### Rounding (`round(x, 1)`)

Python's `round` rounds half to even; on one decimal place this is
`roundHalfEven (10 x) / 10`.  (`round` operates on binary floats; the model
uses the exact rational value, which agrees except on ties that the binary
representation perturbs — none of the claims depends on tie behaviour.) -/

/-- Round a rational to the nearest integer, ties to even. -/
def roundHalfEven (q : Rat) : Int :=
  let f : Int := ⌊q⌋
  let r : Rat := q - (f : Rat)
  if r < 1/2 then f
  else if 1/2 < r then f + 1
  else if f % 2 = 0 then f else f + 1

/-- `round(x, 1)`. -/
def pyRound1 (q : Rat) : Rat := ((roundHalfEven (q * 10) : Int) : Rat) / 10

/-- A rational that is representable with one decimal place. -/
def oneDecimal (q : Rat) : Bool := (q * 10).den == 1

/-! ### Statistics aggregation (`crf_statistics.py` `calculate_crf_statistics`)

The snapshot covers the aggregates the claims are about: the unique-patient
count and every mean / percentage / rate / min / max field (ages, tumor
sizes, ER/PR/HER2, the biomarker combinations, Ki-67 with its thresholds,
lymph nodes, recurrence, survival, Allred scores, follow-up durations).
The purely integer frequency counters (stage, grade, hospital, year,
histologic type, ... distributions) contain no computed numeric aggregate
and are not part of any claim, so they are left out of the record. -/

/-- The slice of a document's ChromaDB metadata the embedded statistics read:
`meta.get('record_id')`, with `none` for a missing or falsy value. -/
structure CrfMeta where
  recordId : Option String
deriving DecidableEq, Repr

/-- mean / min / max / count over a numeric field. -/
structure NumStats where
  mean : Rat
  fieldMin : Rat
  fieldMax : Rat
  count : Nat
deriving DecidableEq, Repr

/-- positive / total / percentage over a binary field. -/
structure PctStats where
  positive : Nat
  total : Nat
  percentage : Rat
deriving DecidableEq, Repr

/-- Lymph-node statistics: binary positivity plus the optional
mean / max of the positive metastatic-node counts. -/
structure LymphStats where
  positive : Nat
  total : Nat
  percentage : Rat
  meanCount : Option Rat
  maxCount : Option Nat
deriving DecidableEq, Repr

/-- One `ki67_thresholds` entry. -/
structure Ki67Threshold where
  threshold : Nat
  count : Nat
  percentage : Rat
deriving DecidableEq, Repr

/-- `recurrence_stats`. -/
structure RecurrenceStats where
  axillaryLn : Nat
  surgerySite : Nat
  distantMetastasis : Nat
  totalWithRecurrence : Nat
  totalPatients : Nat
  recurrenceRate : Rat
deriving DecidableEq, Repr

/-- `survival_stats`. -/
structure SurvivalStats where
  alive : Nat
  deadFromDisease : Nat
  deadFromOther : Nat
  total : Nat
  survivalRate : Rat
deriving DecidableEq, Repr

/-- One biomarker-combination entry. -/
structure ComboStat where
  count : Nat
  percentage : Rat
deriving DecidableEq, Repr

/-- `biomarker_combinations` (all six keys exist once any document carries
all three markers). -/
structure BiomarkerCombos where
  her2Positive : ComboStat
  erPositive : ComboStat
  prPositive : ComboStat
  erPrPositive : ComboStat
  hrPositiveHer2Negative : ComboStat
  tripleNegative : ComboStat
deriving DecidableEq, Repr

/-- `followup_period_stats`. -/
structure FollowupStats where
  meanDays : Rat
  meanMonths : Rat
  meanYears : Rat
  minDays : Int
  maxDays : Int
  count : Nat
deriving DecidableEq, Repr

/-- The embedded statistics snapshot. -/
structure CrfStats where
  totalPatients : Nat
  totalDocuments : Nat
  ageStats : Option NumStats
  tumorSizeStats : Option NumStats
  erStats : Option PctStats
  prStats : Option PctStats
  her2Stats : Option PctStats
  biomarkerCombinations : Option BiomarkerCombos
  ki67Stats : Option NumStats
  ki67Thresholds : List Ki67Threshold
  lymphNodeStats : Option LymphStats
  erAllredStats : Option NumStats
  prAllredStats : Option NumStats
  recurrenceStats : Option RecurrenceStats
  survivalStats : Option SurvivalStats
  followupPeriodStats : Option FollowupStats
deriving DecidableEq, Repr

/-- `{'mean': round(sum/len, 1), 'min': ..., 'max': ..., 'count': ...}`,
present only when the value list is non-empty.  Minima and maxima are the
raw extracted values, unrounded. -/
def mkNumStats : List Rat → Option NumStats
  | [] => none
  | a :: as =>
    some { mean := pyRound1 ((a :: as).sum / ((a :: as).length : Rat))
           fieldMin := as.foldl min a
           fieldMax := as.foldl max a
           count := (a :: as).length }

/-- `{'positive': p, 'total': t, 'percentage': round(p/t*100, 1)}`, present
only when the total is positive. -/
def mkPctStats (positive total : Nat) : Option PctStats :=
  if total = 0 then none
  else some { positive := positive
              total := total
              percentage := pyRound1 ((positive : Rat) / (total : Rat) * 100) }

/-- The duration (in days) contributed by a single document when it carries
both dates and the follow-up date is strictly later — what C6 asserts the
code computes per document. -/
def sameDocPeriod (doc : List Char) : Option Int :=
  match extractSurgeryDate doc, extractFollowupDate doc with
  | some s, some f =>
    if s.toDays < f.toDays then some (f.toDays - s.toDays) else none
  | _, _ => none

/-- The follow-up periods as the source computes them: the two date lists
are collected independently over all documents and then zipped. -/
def followupPeriods (docs : List (List Char)) : List Int :=
  let surgeryDates := docs.filterMap extractSurgeryDate
  let followupDates := docs.filterMap extractFollowupDate
  (surgeryDates.zip followupDates).filterMap fun p =>
    if p.1.toDays < p.2.toDays then some (p.2.toDays - p.1.toDays) else none

/-- One biomarker-combination entry: count plus its percentage over the
denominator `len(unique_records) or len(documents)` (0% when that is 0). -/
def mkComboStat (cnt base : Nat) : ComboStat :=
  { count := cnt
    percentage :=
      if base = 0 then 0
      else pyRound1 ((cnt : Rat) / (base : Rat) * 100) }

/-- `biomarker_combinations`: present once any document carries all three
markers; all six keys are created by the `+= int(...)` updates. -/
def mkBiomarkerCombos (triples : List (Bool × Bool × Bool)) (base : Nat) :
    Option BiomarkerCombos :=
  if triples.isEmpty then none
  else some
    { her2Positive := mkComboStat ((triples.filter fun t => t.2.2).length) base
      erPositive := mkComboStat ((triples.filter fun t => t.1).length) base
      prPositive := mkComboStat ((triples.filter fun t => t.2.1).length) base
      erPrPositive := mkComboStat ((triples.filter fun t => t.1 && t.2.1).length) base
      hrPositiveHer2Negative :=
        mkComboStat ((triples.filter fun t => (t.1 || t.2.1) && !t.2.2).length) base
      tripleNegative :=
        mkComboStat ((triples.filter fun t => !t.1 && !t.2.1 && !t.2.2).length) base }

/-- `ki67_thresholds` over the thresholds `[10, 20, 30]`. -/
def mkKi67Thresholds (ki67s : List Rat) : List Ki67Threshold :=
  if ki67s.isEmpty then []
  else ([10, 20, 30] : List Nat).map fun (th : Nat) =>
    let above := (ki67s.filter fun v => (th : Rat) ≤ v).length
    { threshold := th
      count := above
      percentage := pyRound1 ((above : Rat) / (ki67s.length : Rat) * 100) }

/-- `lymph_node_stats` from the per-document status values and the positive
metastatic-node counts. -/
def mkLymphStats (lymphVals : List Char) (lymphCounts : List Nat) :
    Option LymphStats :=
  if lymphVals.length = 0 then none
  else some
    { positive := (lymphVals.filter fun c => c != '0').length
      total := lymphVals.length
      percentage :=
        pyRound1 (((lymphVals.filter fun c => c != '0').length : Rat) /
          (lymphVals.length : Rat) * 100)
      meanCount :=
        match lymphCounts with
        | [] => none
        | l@(_ :: _) =>
          some (pyRound1 ((l.map fun n => (n : Rat)).sum / (l.length : Rat)))
      maxCount :=
        match lymphCounts with
        | [] => none
        | a :: as => some (as.foldl max a) }

/-- `recurrence_stats` (the rate is `0`, unrounded, when no recurrence). -/
def mkRecurrenceStats (axillary surgerySite distant total : Nat) :
    Option RecurrenceStats :=
  if total = 0 then none
  else
    let totalWith := axillary + surgerySite + distant
    some
      { axillaryLn := axillary
        surgerySite := surgerySite
        distantMetastasis := distant
        totalWithRecurrence := totalWith
        totalPatients := total
        recurrenceRate :=
          if 0 < totalWith then
            pyRound1 ((totalWith : Rat) / (total : Rat) * 100)
          else 0 }

/-- `survival_stats` from the per-document status characters. -/
def mkSurvivalStats (vals : List Char) : Option SurvivalStats :=
  if vals.length = 0 then none
  else some
    { alive := vals.count '0'
      deadFromDisease := vals.count '1'
      deadFromOther := vals.count '2'
      total := vals.length
      survivalRate :=
        pyRound1 ((vals.count '0' : Rat) / (vals.length : Rat) * 100) }

/-- `followup_period_stats` from the day-difference list (the float literals
`30.44` and `365.25` as exact rationals). -/
def mkFollowupStats (periods : List Int) : Option FollowupStats :=
  match periods with
  | [] => none
  | a :: as =>
    let l := a :: as
    let meanDaysRaw : Rat := ((l.map fun i => (i : Rat)).sum / (l.length : Rat))
    some
      { meanDays := pyRound1 meanDaysRaw
        meanMonths := pyRound1 (meanDaysRaw / (3044 / 100 : Rat))
        meanYears := pyRound1 (meanDaysRaw / (36525 / 100 : Rat))
        minDays := as.foldl min a
        maxDays := as.foldl max a
        count := l.length }

/-- `calculate_crf_statistics` (the fields of the snapshot listed above).
The source iterates `zip(documents, metadatas)`; `total_documents` is
`len(documents)`. -/
def calculate_crf_statistics (documents : List (List Char))
    (metadatas : List CrfMeta) : CrfStats :=
  let pairs := documents.zip metadatas
  let docs := pairs.map (fun p => p.1)
  let uniqueRecords := (pairs.filterMap fun p => p.2.recordId).dedup
  let ers := docs.filterMap extractER
  let prs := docs.filterMap extractPR
  let her2s := docs.filterMap extractHER2
  let triples := docs.filterMap fun d => do
    let e ← extractER d
    let p ← extractPR d
    let h ← extractHER2 d
    pure (e, p, h)
  let ki67s := docs.filterMap extractKi67
  { totalPatients := uniqueRecords.length
    totalDocuments := documents.length
    ageStats := mkNumStats ((docs.filterMap extractAge).map fun n => (n : Rat))
    tumorSizeStats := mkNumStats (docs.filterMap extractTumorSize)
    erStats := mkPctStats (ers.count true) ers.length
    prStats := mkPctStats (prs.count true) prs.length
    her2Stats := mkPctStats (her2s.count true) her2s.length
    biomarkerCombinations :=
      mkBiomarkerCombos triples
        (if uniqueRecords.length ≠ 0 then uniqueRecords.length else documents.length)
    ki67Stats := mkNumStats ki67s
    ki67Thresholds := mkKi67Thresholds ki67s
    lymphNodeStats :=
      mkLymphStats (docs.filterMap extractLymphNode)
        ((docs.filterMap extractLymphCount).filter fun n => 0 < n)
    erAllredStats := mkNumStats ((docs.filterMap extractErAllred).map fun n => (n : Rat))
    prAllredStats := mkNumStats ((docs.filterMap extractPrAllred).map fun n => (n : Rat))
    recurrenceStats :=
      mkRecurrenceStats ((docs.filterMap extractAxillaryRec).count '1')
        ((docs.filterMap extractSurgerySiteRec).count '1')
        ((docs.filterMap extractDistantRec).count '1')
        (docs.filterMap extractAxillaryRec).length
    survivalStats := mkSurvivalStats (docs.filterMap extractSurvival)
    followupPeriodStats := mkFollowupStats (followupPeriods docs) }

/-- The rounded aggregates of a snapshot: every mean, percentage and rate
field is representable with one decimal place. -/
def roundedFieldsOneDecimal (st : CrfStats) : Prop :=
  (∀ s ∈ st.ageStats, oneDecimal s.mean = true) ∧
  (∀ s ∈ st.tumorSizeStats, oneDecimal s.mean = true) ∧
  (∀ s ∈ st.erStats, oneDecimal s.percentage = true) ∧
  (∀ s ∈ st.prStats, oneDecimal s.percentage = true) ∧
  (∀ s ∈ st.her2Stats, oneDecimal s.percentage = true) ∧
  (∀ c ∈ st.biomarkerCombinations,
    oneDecimal c.her2Positive.percentage = true ∧
    oneDecimal c.erPositive.percentage = true ∧
    oneDecimal c.prPositive.percentage = true ∧
    oneDecimal c.erPrPositive.percentage = true ∧
    oneDecimal c.hrPositiveHer2Negative.percentage = true ∧
    oneDecimal c.tripleNegative.percentage = true) ∧
  (∀ s ∈ st.ki67Stats, oneDecimal s.mean = true) ∧
  (∀ t ∈ st.ki67Thresholds, oneDecimal t.percentage = true) ∧
  (∀ s ∈ st.lymphNodeStats,
    oneDecimal s.percentage = true ∧ ∀ m ∈ s.meanCount, oneDecimal m = true) ∧
  (∀ s ∈ st.erAllredStats, oneDecimal s.mean = true) ∧
  (∀ s ∈ st.prAllredStats, oneDecimal s.mean = true) ∧
  (∀ s ∈ st.recurrenceStats, oneDecimal s.recurrenceRate = true) ∧
  (∀ s ∈ st.survivalStats, oneDecimal s.survivalRate = true) ∧
  (∀ s ∈ st.followupPeriodStats,
    oneDecimal s.meanDays = true ∧ oneDecimal s.meanMonths = true ∧
    oneDecimal s.meanYears = true)

/-! ## Theorems -/

/-! ### C1: an explicit issue number forces the Redmine engine -/

/-- C1: for every question matching the Redmine exact-identifier pattern
(`_extract_issue_ids` non-empty, e.g. a `#123` issue tag), the `chat()`
router selects the Redmine engine, for every CRF-engine availability, every
outcome of the other pattern classifiers, every previous-turn engine, and
every pair of embedding distances and threshold. -/
theorem issue_id_forces_redmine_routing
    (crfAvailable isCrfDataQuery isRedmineDataQuery isFollowup : Bool)
    (lastEngine : Option Engine) (crfDistance redmineDistance : PyFloat)
    (threshold : Rat) (question : List Char)
    (h : extract_issue_ids question ≠ []) :
    chat_route crfAvailable isCrfDataQuery isRedmineDataQuery isFollowup
      lastEngine crfDistance redmineDistance threshold question = Engine.redmine := by
  have hne : (extract_issue_ids question).isEmpty = false := by
    cases hq : extract_issue_ids question with
    | nil => exact absurd hq h
    | cons a t => rfl
  unfold chat_route
  simp [hne]

/-- Witness for C1 at the question `"이슈 #123 상태가 뭐야?"`, with the CRF
engine available, every other classifier firing, a sticky CRF previous
engine, and distances that would favour CRF. -/
theorem issue_id_forces_redmine_routing_witness :
    chat_route true true false true (some Engine.crf)
      (PyFloat.fin 0) PyFloat.inf (5/100) ("이슈 #123 상태가 뭐야?".toList) =
      Engine.redmine :=
  issue_id_forces_redmine_routing true true false true (some Engine.crf)
    (PyFloat.fin 0) PyFloat.inf (5/100) ("이슈 #123 상태가 뭐야?".toList)
    (by decide)

/-! ### C2: metadata and sample questions are never statistics questions -/

/-- C2: a question matching any metadata-query pattern or any sample-query
pattern is classified as not-a-statistics-query, whatever the statistics
patterns say; in particular a question containing both 통계 and 사례 is
never a statistics query (the witness below is such a question). -/
theorem metadata_or_sample_never_statistics (q : List Char)
    (h : is_metadata_query q = true ∨ is_sample_query q = true) :
    is_statistics_query q = false := by
  unfold is_statistics_query
  rcases h with h | h
  · simp [h]
  · cases hm : is_metadata_query q <;> simp [hm, h]

/-- Witness for C2: `"통계도 좋지만 사례만 보여줘"` matches the statistics
pattern 통계 and the sample pattern 사례, and is not a statistics query. -/
theorem metadata_or_sample_never_statistics_witness :
    matches_statistics_pattern ("통계도 좋지만 사례만 보여줘".toList) = true ∧
    is_statistics_query ("통계도 좋지만 사례만 보여줘".toList) = false :=
  ⟨by decide,
   metadata_or_sample_never_statistics ("통계도 좋지만 사례만 보여줘".toList)
     (Or.inr (by decide))⟩

/-! ### C3: the recent-query floor on top-k -/

/-- C3: for every question detected as a recent-query, the top-k returned by
`_determine_top_k` is at least the `recent` floor, for every configuration
table, use case, and caller-supplied value; whenever the caller-supplied
value lies below the floor the returned top-k equals the floor exactly; and
whenever no value was supplied and the computed domain/version/technical/
general default — `determine_top_k` with `recentQuery = false` — lies below
the floor, the returned top-k equals the floor exactly. -/
theorem recent_query_top_k_floor (cfg : TopKDefaults) (useCase : String)
    (question : List Char) (topK : Option Int)
    (h : is_recent_query question = true) :
    cfg.recent ≤ determine_top_k cfg useCase question topK
        (is_recent_query question) ∧
    (∀ k : Int, topK = some k → k < cfg.recent →
      determine_top_k cfg useCase question topK (is_recent_query question) =
        cfg.recent) ∧
    (topK = none →
      determine_top_k cfg useCase question none false < cfg.recent →
      determine_top_k cfg useCase question topK (is_recent_query question) =
        cfg.recent) := by
  rw [h]
  unfold determine_top_k
  cases topK with
  | some k =>
    refine ⟨?_, ?_, ?_⟩
    · by_cases hk : k < cfg.recent
      · simp [hk]
      · simp [hk]; omega
    · intro k2 hk2 hlt
      injection hk2 with hk2
      subst hk2
      simp [hlt]
    · intro hnone
      exact absurd hnone (by simp)
  | none =>
    refine ⟨?_, ?_, ?_⟩
    · dsimp only
      set k0 := if useCase = "crf" then cfg.crf
        else if is_version_or_comparison_query question then cfg.version
        else if is_specific_technical_query question then cfg.technical
        else cfg.general with hk0
      by_cases hk : k0 < cfg.recent
      · simp [hk]
      · simp [hk]; omega
    · intro k2 hk2
      exact absurd hk2 (by simp)
    · intro _ hlt
      simp only [Bool.false_and, Bool.true_and, if_neg, Bool.false_eq_true] at hlt
      simp at hlt
      simp [hlt]

/-- Witness for C3: a recent-query with an explicit `top_k = 3` below the
floor 100 is raised to 100, and the same question with no explicit value,
whose computed default (the version default 30, since 최신 is also a
version/comparison keyword) is below the floor, is also raised to 100. -/
theorem recent_query_top_k_floor_witness :
    determine_top_k ⟨100, 120, 30, 20, 10⟩ "redmine" ("최신 이슈 알려줘".toList)
      (some 3) (is_recent_query ("최신 이슈 알려줘".toList)) = 100 ∧
    determine_top_k ⟨100, 120, 30, 20, 10⟩ "redmine" ("최신 이슈 알려줘".toList)
      none (is_recent_query ("최신 이슈 알려줘".toList)) = 100 :=
  ⟨(recent_query_top_k_floor ⟨100, 120, 30, 20, 10⟩ "redmine"
      ("최신 이슈 알려줘".toList) (some 3) (by decide)).2.1 3 rfl (by decide),
   (recent_query_top_k_floor ⟨100, 120, 30, 20, 10⟩ "redmine"
      ("최신 이슈 알려줘".toList) none (by decide)).2.2 rfl (by decide)⟩

/-! ### C4: non-empty direct lookups are used verbatim -/

/-- C4: when the direct exact-identifier lookup returned a non-empty
document set, `_search_documents` returns exactly those documents and
metadatas with a synthetic distance `0.0` per document, and its result does
not depend on the search-query builder, the embedding function, or the
vector-index query — no embedding or vector search is performed. -/
theorem direct_lookup_used_verbatim {δ μ : Type}
    (r : GetResult δ μ) (bq bq2 : Unit → List Char)
    (embed embed2 : List Char → List Rat)
    (vq vq2 : List Rat → Int → VQueryResult δ μ) (topK : Int)
    (h : r.documents ≠ []) :
    search_documents (some r) bq embed vq topK =
      (r.documents, r.metadatas, r.documents.map fun _ => PyFloat.fin 0) ∧
    search_documents (some r) bq embed vq topK =
      search_documents (some r) bq2 embed2 vq2 topK := by
  have hne : r.documents.isEmpty = false := by
    cases hd : r.documents with
    | nil => exact absurd hd h
    | cons a t => rfl
  unfold search_documents
  simp [hne]

/-- Witness for C4 at a one-document direct-lookup result, with two vector
searches that would return different data. -/
theorem direct_lookup_used_verbatim_witness :
    search_documents (some (⟨[7], [3]⟩ : GetResult Nat Nat))
      (fun _ => []) (fun _ => []) (fun _ _ => ⟨[[1, 2]], [[9, 9]], [[]]⟩) 5 =
      ([7], [3], [PyFloat.fin 0]) :=
  (direct_lookup_used_verbatim (⟨[7], [3]⟩ : GetResult Nat Nat)
    (fun _ => []) (fun _ => []) (fun _ => []) (fun _ => [])
    (fun _ _ => ⟨[[1, 2]], [[9, 9]], [[]]⟩) (fun _ _ => ⟨[[]], [[]], [[]]⟩) 5
    (by decide)).1

/-! ### C8: conversation memory is best-effort -/

/-- C8: `save_conversation` never raises to its caller (its outcome is
`ok` for every store state and every embedding/upsert outcome), and
`search_conversation_history` returns the empty list — rather than
propagating — when the store is absent, when it is empty, and when any step
of its body (count, embedding, query, result indexing) fails. -/
theorem conversation_memory_best_effort :
    (∀ (conv : Option Unit) (embed : Except String (List Rat))
       (upsert : List Rat → Except String Unit),
       save_conversation conv embed upsert = Except.ok ()) ∧
    (∀ (count : Except String Nat) (embed : Except String (List Rat))
       (query : List Rat → Except String ConvQueryResult),
       search_conversation_history none count embed query = []) ∧
    (∀ (conv : Option Unit) (embed : Except String (List Rat))
       (query : List Rat → Except String ConvQueryResult),
       search_conversation_history conv (Except.ok 0) embed query = []) ∧
    (∀ (conv : Option Unit) (count : Except String Nat)
       (embed : Except String (List Rat))
       (query : List Rat → Except String ConvQueryResult) (err : String),
       searchConversationBody count embed query = Except.error err →
       search_conversation_history conv count embed query = []) := by
  refine ⟨?_, ?_, ?_, ?_⟩
  · intro conv embed upsert
    cases conv with
    | none => rfl
    | some u =>
      simp only [save_conversation]
      split <;> rfl
  · intro count embed query
    rfl
  · intro conv embed query
    cases conv with
    | none => rfl
    | some u => rfl
  · intro conv count embed query err h
    cases conv with
    | none => rfl
    | some u =>
      simp only [search_conversation_history, h]

/-- Witness for C8: a failing embedding call during save still yields `ok`,
and a failing count call during search yields the empty list. -/
theorem conversation_memory_best_effort_witness :
    save_conversation (some ()) (Except.error "embed down")
        (fun _ => Except.ok ()) = Except.ok () ∧
    search_conversation_history (some ()) (Except.error "count down")
        (Except.error "embed down") (fun _ => Except.error "query down") = [] :=
  ⟨conversation_memory_best_effort.1 (some ()) (Except.error "embed down")
     (fun _ => Except.ok ()),
   conversation_memory_best_effort.2.2.2 (some ()) (Except.error "count down")
     (Except.error "embed down") (fun _ => Except.error "query down")
     "count down" rfl⟩

/-! ### C9: the similarity comparison is total and fails to infinity -/

/-- C9: `compare_collection_similarity` always returns a distance paired
with the collection name; when the embedding call or the index query fails
it returns `float('inf')` with the collection name; and an infinite
distance is never strictly below `other - threshold`, so a failing
collection loses the router's distance comparison. -/
theorem compare_similarity_total_and_inf (name : String)
    (embed : Except String (List Rat))
    (query : List Rat → Except String (List (List PyFloat))) :
    (∃ d, compare_collection_similarity name embed query = (d, name)) ∧
    (∀ err : String, embed = Except.error err →
      compare_collection_similarity name embed query = (PyFloat.inf, name)) ∧
    (∀ (v : List Rat) (err : String), embed = Except.ok v →
      query v = Except.error err →
      compare_collection_similarity name embed query = (PyFloat.inf, name)) ∧
    (∀ (d : PyFloat) (t : Rat), pyLt PyFloat.inf (pySubC d t) = false) := by
  refine ⟨?_, ?_, ?_, ?_⟩
  · unfold compare_collection_similarity
    cases h : compareBody embed query with
    | ok d => exact ⟨d, rfl⟩
    | error e => exact ⟨PyFloat.inf, rfl⟩
  · intro err he
    subst he
    rfl
  · intro v err hv hq
    subst hv
    have hb : compareBody (Except.ok v) query = Except.error err := by
      show ((query v).bind fun res =>
          match res.head? with
          | none => Except.error "IndexError"
          | some ds => pure (ds.headD PyFloat.inf)) = Except.error err
      rw [hq]
      rfl
    unfold compare_collection_similarity
    rw [hb]
  · intro d t
    cases d <;> rfl

/-- Witness for C9: a failing embedding call yields infinity with the
collection name. -/
theorem compare_similarity_total_and_inf_witness :
    compare_collection_similarity "crf_breast_v0.3.0" (Except.error "embed down")
      (fun _ => Except.ok [[PyFloat.fin 1]]) = (PyFloat.inf, "crf_breast_v0.3.0") :=
  (compare_similarity_total_and_inf "crf_breast_v0.3.0" (Except.error "embed down")
    (fun _ => Except.ok [[PyFloat.fin 1]])).2.1 "embed down" rfl

/-! ### C10: chunking reassembles the text -/

/-- The slices reassemble the input when the fuel covers its length. -/
theorem chunkSlices_join (m : Nat) (hm : 0 < m) :
    ∀ (fuel : Nat) (l : List Char), l.length ≤ fuel →
      (chunkSlices m fuel l).flatten = l := by
  intro fuel
  induction fuel with
  | zero =>
    intro l hl
    rw [List.length_eq_zero.mp (Nat.le_zero.mp hl)]
    rfl
  | succ n ih =>
    intro l hl
    cases l with
    | nil => rfl
    | cons c cs =>
      show ((c :: cs).take m :: chunkSlices m n ((c :: cs).drop m)).flatten = c :: cs
      rw [List.flatten_cons, ih ((c :: cs).drop m) (by
        rw [List.length_drop]
        simp only [List.length_cons] at hl ⊢
        omega)]
      exact List.take_append_drop m (c :: cs)

/-- Every slice respects the length bound. -/
theorem chunkSlices_length_le (m : Nat) :
    ∀ (fuel : Nat) (l : List Char), ∀ c ∈ chunkSlices m fuel l, c.length ≤ m := by
  intro fuel
  induction fuel with
  | zero => intro l c hc; simp [chunkSlices] at hc
  | succ n ih =>
    intro l c hc
    cases l with
    | nil => simp [chunkSlices] at hc
    | cons a as =>
      rcases List.mem_cons.mp hc with h | h
      · subst h; exact List.length_take_le m (a :: as)
      · exact ih _ c h

/-- C10: for every text and positive `max_chars`, `_chunk_statistics_text`
returns a non-empty chunk list whose in-order concatenation is the original
text, with every chunk of length at most `max_chars`; a text of length at
most `max_chars` yields the singleton list of the text itself. -/
theorem chunk_statistics_text_reassembles (text : List Char) (maxChars : Nat)
    (h : 0 < maxChars) :
    chunk_statistics_text text maxChars ≠ [] ∧
    (chunk_statistics_text text maxChars).flatten = text ∧
    (∀ c ∈ chunk_statistics_text text maxChars, c.length ≤ maxChars) ∧
    (text.length ≤ maxChars → chunk_statistics_text text maxChars = [text]) := by
  unfold chunk_statistics_text
  by_cases hle : text.length ≤ maxChars
  · refine ⟨by simp [hle], ?_, ?_, fun _ => by simp [hle]⟩
    · simp [hle]
    · intro c hc
      simp [hle] at hc
      subst hc
      exact hle
  · refine ⟨?_, ?_, ?_, fun hcon => absurd hcon hle⟩
    · simp only [hle, if_false]
      cases htext : text with
      | nil => exact absurd (by simp [htext]) hle
      | cons a as => simp [chunkSlices]
    · simp only [hle, if_false]
      exact chunkSlices_join maxChars h text.length text le_rfl
    · simp only [hle, if_false]
      exact chunkSlices_length_le maxChars text.length text

/-- Witness for C10 at `"abcdefg"` with `max_chars = 3`. -/
theorem chunk_statistics_text_reassembles_witness :
    chunk_statistics_text ("abcdefg".toList) 3 ≠ [] ∧
    (chunk_statistics_text ("abcdefg".toList) 3).flatten = "abcdefg".toList :=
  ⟨(chunk_statistics_text_reassembles ("abcdefg".toList) 3 (by decide)).1,
   (chunk_statistics_text_reassembles ("abcdefg".toList) 3 (by decide)).2.1⟩

/-! ### C5: unique-patient count versus document count -/

/-- `filterMap id` preserves the length exactly when no entry is `none`. -/
theorem filterMap_id_length_eq_iff {α : Type} (l : List (Option α)) :
    (l.filterMap id).length = l.length ↔ ∀ x ∈ l, x.isSome := by
  induction l with
  | nil => simp
  | cons a t ih =>
    cases a with
    | none =>
      have hle := List.length_filterMap_le (@id (Option α)) t
      simp only [List.filterMap_cons, id, List.length_cons]
      constructor
      · intro hlen
        omega
      · intro hall
        exact absurd (hall none (List.mem_cons_self _ _)) (by simp)
    | some b =>
      simp only [List.filterMap_cons, id, List.length_cons, Nat.add_right_cancel_iff, ih]
      constructor
      · intro hall x hx
        rcases List.mem_cons.mp hx with h | h
        · subst h; rfl
        · exact hall x h
      · intro hall x hx
        exact hall x (List.mem_cons_of_mem _ hx)

/-- Re-wrapping the kept values recovers an all-`some` list. -/
theorem map_some_filterMap_id {α : Type} (l : List (Option α))
    (h : ∀ x ∈ l, x.isSome) : (l.filterMap id).map some = l := by
  induction l with
  | nil => rfl
  | cons a t ih =>
    cases a with
    | none => exact absurd (h none (List.mem_cons_self _ _)) (by simp)
    | some b =>
      have := ih fun x hx => h x (List.mem_cons_of_mem _ hx)
      simp only [List.filterMap_cons, id, List.map_cons, this]

/-- On an all-`some` list, `filterMap id` preserves duplicate-freeness in
both directions. -/
theorem nodup_filterMap_id_iff {α : Type} (l : List (Option α))
    (h : ∀ x ∈ l, x.isSome) : (l.filterMap id).Nodup ↔ l.Nodup := by
  constructor
  · intro hn
    have hmap := hn.map (Option.some_injective α)
    rwa [map_some_filterMap_id l h] at hmap
  · intro hn
    refine List.Nodup.filterMap ?_ hn
    intro a a2 b hb hb2
    rw [Option.mem_def] at hb hb2
    simp only [id] at hb hb2
    rw [hb, hb2]

/-- The deduplicated kept values never outnumber the original entries, with
equality exactly when every entry is present and all are distinct. -/
theorem dedup_filterMap_id_bounds {α : Type} [DecidableEq α]
    (l : List (Option α)) :
    ((l.filterMap id).dedup).length ≤ l.length ∧
    (((l.filterMap id).dedup).length = l.length ↔
      (∀ x ∈ l, x.isSome) ∧ l.Nodup) := by
  have h1 : ((l.filterMap id).dedup).length ≤ (l.filterMap id).length :=
    (List.dedup_sublist _).length_le
  have h2 : (l.filterMap id).length ≤ l.length := List.length_filterMap_le _ _
  refine ⟨le_trans h1 h2, ?_, ?_⟩
  · intro heq
    have hfm : (l.filterMap id).length = l.length := by omega
    have hdl : ((l.filterMap id).dedup).length = (l.filterMap id).length := by omega
    have hall : ∀ x ∈ l, x.isSome := (filterMap_id_length_eq_iff l).mp hfm
    have hdedup_eq : (l.filterMap id).dedup = l.filterMap id :=
      (List.dedup_sublist _).eq_of_length hdl
    have hnd : (l.filterMap id).Nodup := by
      rw [← hdedup_eq]; exact List.nodup_dedup _
    exact ⟨hall, (nodup_filterMap_id_iff l hall).mp hnd⟩
  · rintro ⟨hall, hnd⟩
    have hfmnd : (l.filterMap id).Nodup := (nodup_filterMap_id_iff l hall).mpr hnd
    rw [hfmnd.dedup]
    exact (filterMap_id_length_eq_iff l).mpr hall

/-- C5: the unique-patient count (size of the distinct record-identifier
set) never exceeds the document count, with equality exactly when every
document carries a record identifier and all identifiers are pairwise
distinct. -/
theorem unique_patient_count_bounds (documents : List (List Char))
    (metadatas : List CrfMeta) (h : documents.length = metadatas.length) :
    (calculate_crf_statistics documents metadatas).totalPatients ≤
      (calculate_crf_statistics documents metadatas).totalDocuments ∧
    ((calculate_crf_statistics documents metadatas).totalPatients =
        (calculate_crf_statistics documents metadatas).totalDocuments ↔
      (∀ x ∈ (documents.zip metadatas).map fun p => p.2.recordId, x.isSome) ∧
      ((documents.zip metadatas).map fun p => p.2.recordId).Nodup) := by
  have hproj : (calculate_crf_statistics documents metadatas).totalPatients =
      ((((documents.zip metadatas).map fun p => p.2.recordId).filterMap
        id).dedup).length := by
    show (((documents.zip metadatas).filterMap fun p =>
      p.2.recordId).dedup).length = _
    rw [List.filterMap_map]
    rfl
  have hdocs : (calculate_crf_statistics documents metadatas).totalDocuments =
      documents.length := rfl
  have hLlen : ((documents.zip metadatas).map fun p => p.2.recordId).length =
      documents.length := by
    simp [List.length_zip, h]
  obtain ⟨hle, hiff⟩ :=
    dedup_filterMap_id_bounds ((documents.zip metadatas).map fun p => p.2.recordId)
  constructor
  · rw [hproj, hdocs, ← hLlen]
    exact hle
  · rw [hproj, hdocs, ← hLlen]
    exact hiff

/-- Witness for C5 at a two-document batch with distinct record ids. -/
theorem unique_patient_count_bounds_witness :
    (calculate_crf_statistics ["나이 (진단시): 63".toList, "나이 (진단시): 41".toList]
        [⟨some "BC_01_0001"⟩, ⟨some "BC_01_0002"⟩]).totalPatients ≤
      (calculate_crf_statistics ["나이 (진단시): 63".toList, "나이 (진단시): 41".toList]
        [⟨some "BC_01_0001"⟩, ⟨some "BC_01_0002"⟩]).totalDocuments :=
  (unique_patient_count_bounds
    ["나이 (진단시): 63".toList, "나이 (진단시): 41".toList]
    [⟨some "BC_01_0001"⟩, ⟨some "BC_01_0002"⟩] rfl).1

/-! ### C6: follow-up durations pair dates across documents -/

/-- Counterexample to C6: one document carries only the surgery date and the
other only the follow-up date — no document carries both — yet the snapshot
reports a (cross-document) follow-up duration. -/
theorem followup_duration_cross_document_counterexample :
    (calculate_crf_statistics
        ["수술연월일: 2020-01-01 00:00:00".toList,
         "Last F/U 날짜 (연-월-일): 2020-12-31 00:00:00".toList]
        [⟨some "BC_01_0001"⟩, ⟨some "BC_01_0002"⟩]).followupPeriodStats ≠ none ∧
    ((extractSurgeryDate ("수술연월일: 2020-01-01 00:00:00".toList)).isSome &&
      (extractFollowupDate ("수술연월일: 2020-01-01 00:00:00".toList)).isSome)
      = false ∧
    ((extractSurgeryDate
        ("Last F/U 날짜 (연-월-일): 2020-12-31 00:00:00".toList)).isSome &&
      (extractFollowupDate
        ("Last F/U 날짜 (연-월-일): 2020-12-31 00:00:00".toList)).isSome)
      = false := by
  with_unfolding_all decide

/-- C6 (amended): the code zips the independently-collected surgery-date and
follow-up-date lists; when every document carries either both dates or
neither, the follow-up durations are exactly the per-document day
differences restricted to documents whose follow-up date is strictly after
their surgery date. -/
theorem followup_durations_per_document_when_aligned (docs : List (List Char))
    (h : ∀ d ∈ docs, (extractSurgeryDate d).isSome = (extractFollowupDate d).isSome) :
    followupPeriods docs = docs.filterMap sameDocPeriod := by
  induction docs with
  | nil => rfl
  | cons d t ih =>
    have hd := h d (List.mem_cons_self d t)
    have iht := ih fun x hx => h x (List.mem_cons_of_mem d hx)
    unfold followupPeriods at iht ⊢
    cases hs : extractSurgeryDate d with
    | none =>
      cases hf : extractFollowupDate d with
      | none =>
        have hsd : sameDocPeriod d = none := by
          simp [sameDocPeriod, hs, hf]
        simp only [List.filterMap_cons, hs, hf, hsd]
        exact iht
      | some f =>
        rw [hs, hf] at hd
        simp at hd
    | some s =>
      cases hf : extractFollowupDate d with
      | none =>
        rw [hs, hf] at hd
        simp at hd
      | some f =>
        have hsd : sameDocPeriod d =
            (if s.toDays < f.toDays then some (f.toDays - s.toDays) else none) := by
          simp [sameDocPeriod, hs, hf]
        simp only [List.filterMap_cons, hs, hf, hsd, List.zip_cons_cons]
        by_cases hlt : s.toDays < f.toDays
        · simp [hlt, iht]
        · simp [hlt, iht]

/-- Witness for the amended C6 at an aligned batch: one document with both
dates, one with neither. -/
theorem followup_durations_per_document_when_aligned_witness :
    followupPeriods
        [("수술연월일: 2020-01-01 00:00:00\n" ++
          "Last F/U 날짜 (연-월-일): 2020-12-31 00:00:00").toList,
         "병리번호: X".toList] =
      [("수술연월일: 2020-01-01 00:00:00\n" ++
          "Last F/U 날짜 (연-월-일): 2020-12-31 00:00:00").toList,
         "병리번호: X".toList].filterMap sameDocPeriod :=
  followup_durations_per_document_when_aligned
    [("수술연월일: 2020-01-01 00:00:00\n" ++
      "Last F/U 날짜 (연-월-일): 2020-12-31 00:00:00").toList,
     "병리번호: X".toList]
    (by with_unfolding_all decide)

/-! ### C7: rounding of numeric aggregates -/

/-- `round(x, 1)` always lands on one decimal place. -/
theorem oneDecimal_pyRound1 (q : Rat) : oneDecimal (pyRound1 q) = true := by
  unfold oneDecimal pyRound1
  rw [div_mul_cancel₀ _ (by norm_num : (10 : Rat) ≠ 0)]
  simp [Rat.den_intCast]

/-- The literal fallback `0` is one decimal place. -/
theorem oneDecimal_zero : oneDecimal 0 = true := by
  unfold oneDecimal
  norm_num

/-- The mean produced by `mkNumStats` is rounded. -/
theorem mkNumStats_mean_oneDecimal (l : List Rat) :
    ∀ s ∈ mkNumStats l, oneDecimal s.mean = true := by
  intro s hs
  cases l with
  | nil => simp [mkNumStats] at hs
  | cons a t =>
    simp only [mkNumStats, Option.mem_def, Option.some_inj] at hs
    subst hs
    exact oneDecimal_pyRound1 _

/-- The percentage produced by `mkPctStats` is rounded. -/
theorem mkPctStats_percentage_oneDecimal (p t : Nat) :
    ∀ s ∈ mkPctStats p t, oneDecimal s.percentage = true := by
  intro s hs
  unfold mkPctStats at hs
  split at hs
  · simp at hs
  · simp only [Option.mem_def, Option.some_inj] at hs
    subst hs
    exact oneDecimal_pyRound1 _

/-- The percentage produced by `mkComboStat` is rounded (or the literal 0). -/
theorem mkComboStat_percentage_oneDecimal (c b : Nat) :
    oneDecimal (mkComboStat c b).percentage = true := by
  unfold mkComboStat
  dsimp only
  split
  · exact oneDecimal_zero
  · exact oneDecimal_pyRound1 _

/-- All six biomarker-combination percentages are rounded. -/
theorem mkBiomarkerCombos_oneDecimal (triples : List (Bool × Bool × Bool))
    (base : Nat) :
    ∀ c ∈ mkBiomarkerCombos triples base,
      oneDecimal c.her2Positive.percentage = true ∧
      oneDecimal c.erPositive.percentage = true ∧
      oneDecimal c.prPositive.percentage = true ∧
      oneDecimal c.erPrPositive.percentage = true ∧
      oneDecimal c.hrPositiveHer2Negative.percentage = true ∧
      oneDecimal c.tripleNegative.percentage = true := by
  intro c hc
  unfold mkBiomarkerCombos at hc
  split at hc
  · simp at hc
  · simp only [Option.mem_def, Option.some_inj] at hc
    subst hc
    exact ⟨mkComboStat_percentage_oneDecimal _ _, mkComboStat_percentage_oneDecimal _ _,
      mkComboStat_percentage_oneDecimal _ _, mkComboStat_percentage_oneDecimal _ _,
      mkComboStat_percentage_oneDecimal _ _, mkComboStat_percentage_oneDecimal _ _⟩

/-- All Ki-67 threshold percentages are rounded. -/
theorem mkKi67Thresholds_oneDecimal (l : List Rat) :
    ∀ t ∈ mkKi67Thresholds l, oneDecimal t.percentage = true := by
  intro t ht
  unfold mkKi67Thresholds at ht
  split at ht
  · simp at ht
  · simp only [List.mem_map] at ht
    obtain ⟨th, _, rfl⟩ := ht
    exact oneDecimal_pyRound1 _

/-- The lymph-node percentage and mean metastatic count are rounded. -/
theorem mkLymphStats_oneDecimal (vals : List Char) (counts : List Nat) :
    ∀ s ∈ mkLymphStats vals counts,
      oneDecimal s.percentage = true ∧ ∀ m ∈ s.meanCount, oneDecimal m = true := by
  intro s hs
  unfold mkLymphStats at hs
  split at hs
  · simp at hs
  · simp only [Option.mem_def, Option.some_inj] at hs
    subst hs
    refine ⟨oneDecimal_pyRound1 _, ?_⟩
    intro m hm
    cases counts with
    | nil => simp at hm
    | cons a t =>
      simp only [Option.mem_def, Option.some_inj] at hm
      subst hm
      exact oneDecimal_pyRound1 _

/-- The recurrence rate is rounded (or the literal 0). -/
theorem mkRecurrenceStats_oneDecimal (ax ss dm total : Nat) :
    ∀ s ∈ mkRecurrenceStats ax ss dm total,
      oneDecimal s.recurrenceRate = true := by
  intro s hs
  unfold mkRecurrenceStats at hs
  split at hs
  · simp at hs
  · simp only [Option.mem_def, Option.some_inj] at hs
    subst hs
    dsimp only
    split
    · exact oneDecimal_pyRound1 _
    · exact oneDecimal_zero

/-- The survival rate is rounded. -/
theorem mkSurvivalStats_oneDecimal (vals : List Char) :
    ∀ s ∈ mkSurvivalStats vals, oneDecimal s.survivalRate = true := by
  intro s hs
  unfold mkSurvivalStats at hs
  split at hs
  · simp at hs
  · simp only [Option.mem_def, Option.some_inj] at hs
    subst hs
    exact oneDecimal_pyRound1 _

/-- The three follow-up means are rounded. -/
theorem mkFollowupStats_oneDecimal (periods : List Int) :
    ∀ s ∈ mkFollowupStats periods,
      oneDecimal s.meanDays = true ∧ oneDecimal s.meanMonths = true ∧
      oneDecimal s.meanYears = true := by
  intro s hs
  cases periods with
  | nil => simp [mkFollowupStats] at hs
  | cons a t =>
    simp only [mkFollowupStats, Option.mem_def, Option.some_inj] at hs
    subst hs
    exact ⟨oneDecimal_pyRound1 _, oneDecimal_pyRound1 _, oneDecimal_pyRound1 _⟩

/-- Counterexample to C7: a document whose tumor size has two decimal
places; the snapshot's tumor-size minimum keeps both decimals — the field
is reported as extracted, not rounded to one decimal place. -/
theorem tumor_size_min_not_one_decimal :
    ((calculate_crf_statistics ["암 size (mm)_장경: 19.25".toList]
        [⟨some "BC_01_0001"⟩]).tumorSizeStats.map
      fun s => oneDecimal s.fieldMin) = some false := by
  with_unfolding_all decide

/-- C7 (amended): every mean, percentage and rate aggregate in the snapshot
is rounded to one decimal place; minima and maxima are the raw extracted
values (integers for ages, Allred scores and day counts, but unrounded
decimals for tumor sizes and Ki-67, as the counterexample shows). -/
theorem statistics_rounded_aggregates_one_decimal (documents : List (List Char))
    (metadatas : List CrfMeta) :
    roundedFieldsOneDecimal (calculate_crf_statistics documents metadatas) := by
  refine ⟨?_, ?_, ?_, ?_, ?_, ?_, ?_, ?_, ?_, ?_, ?_, ?_, ?_, ?_⟩
  · exact mkNumStats_mean_oneDecimal _
  · exact mkNumStats_mean_oneDecimal _
  · exact mkPctStats_percentage_oneDecimal _ _
  · exact mkPctStats_percentage_oneDecimal _ _
  · exact mkPctStats_percentage_oneDecimal _ _
  · exact mkBiomarkerCombos_oneDecimal _ _
  · exact mkNumStats_mean_oneDecimal _
  · exact mkKi67Thresholds_oneDecimal _
  · exact mkLymphStats_oneDecimal _ _
  · exact mkNumStats_mean_oneDecimal _
  · exact mkNumStats_mean_oneDecimal _
  · exact mkRecurrenceStats_oneDecimal _ _ _ _
  · exact mkSurvivalStats_oneDecimal _
  · exact mkFollowupStats_oneDecimal _

end RedmineRAG
